import Mathlib

/-!
Shallow embedding of the ArbiLink MessageHub contract
(src/message-hub/src/lib.rs, Arbitrum Stylus) and verification of the
frozen behavioural claims about it.

Modelling conventions:
* `U256` values are `Nat` together with explicit wrap-around arithmetic
  modulo `2 ^ 256` (`addU`, `subU`, `mulU`), matching ruint's release-mode
  wrapping semantics used by the deployed (release-build) contract.
* Addresses are `Nat` (only equality against zero and map keys matter).
* Solidity mappings with zero-initialised defaults become total functions
  updated by `mset`; the relayer mapping is an association list so that the
  sum of all stakes is expressible.
* Each public method becomes a function from an `Env` (msg.sender,
  msg.value, block.timestamp, and the outcome of the single `transfer_eth`
  the method may perform) and a pre-`State` to a triple
  (post-state, performed value transfers, result).  These "raw" functions
  follow the Rust statement order exactly, so an error raised after a
  storage write returns the partially mutated state.  `step` then applies
  the Stylus host semantics: a public method returning `Err` reverts the
  whole call, so storage writes and value transfers are discarded.
-/

namespace ArbiLink

/-- Modulus of the 256-bit EVM word type. -/
def U256MOD : Nat := 2 ^ 256

/-- Wrapping 256-bit addition. -/
def addU (a b : Nat) : Nat := (a + b) % U256MOD

/-- Wrapping 256-bit subtraction (arguments are values below `U256MOD`). -/
def subU (a b : Nat) : Nat := (a + U256MOD - b) % U256MOD

/-- Wrapping 256-bit multiplication. -/
def mulU (a b : Nat) : Nat := (a * b) % U256MOD

/-- Message status constant `STATUS_PENDING` from the source. -/
def STATUS_PENDING : Nat := 0

/-- Message status constant `STATUS_RELAYED` from the source. -/
def STATUS_RELAYED : Nat := 1

/-- Message status constant `STATUS_CONFIRMED` from the source. -/
def STATUS_CONFIRMED : Nat := 2

/-- Message status constant `STATUS_FAILED` from the source. -/
def STATUS_FAILED : Nat := 3

/-- Basis-point share of the fee rewarded to the relayer at confirmation. -/
def RELAYER_REWARD_BPS : Nat := 8000

/-- Basis-point share of the slashed stake rewarded to a successful challenger. -/
def CHALLENGER_REWARD_BPS : Nat := 1000

/-- Per-message storage record (`StoredMessage` in the source). -/
structure StoredMessage where
  sender : Nat
  destination_chain : Nat
  target : Nat
  data : List Nat
  timestamp : Nat
  fee_paid : Nat
  status : Nat
  relayer : Nat
  deriving Repr, DecidableEq

/-- Per-chain configuration record (`StoredChainConfig` in the source). -/
structure StoredChainConfig where
  enabled : Bool
  receiver_address : Nat
  base_fee : Nat
  deriving Repr, DecidableEq

/-- Per-relayer record (`StoredRelayerInfo` in the source). -/
structure StoredRelayerInfo where
  active : Bool
  total_relayed : Nat
  successful : Nat
  slashed : Nat
  stake : Nat
  deriving Repr, DecidableEq

/-- Per-challenge record (`StoredChallenge` in the source; the Rust field
`exists` is a reserved word in Lean and is rendered `ch_exists`). -/
structure StoredChallenge where
  ch_exists : Bool
  challenger : Nat
  deadline : Nat
  resolved : Bool
  deriving Repr, DecidableEq

/-- Zero-initialised message record, the default value of the `messages` mapping. -/
def emptyMessage : StoredMessage :=
  { sender := 0, destination_chain := 0, target := 0, data := [], timestamp := 0,
    fee_paid := 0, status := 0, relayer := 0 }

/-- Zero-initialised chain configuration. -/
def emptyChain : StoredChainConfig :=
  { enabled := false, receiver_address := 0, base_fee := 0 }

/-- Zero-initialised relayer record. -/
def emptyRelayer : StoredRelayerInfo :=
  { active := false, total_relayed := 0, successful := 0, slashed := 0, stake := 0 }

/-- Zero-initialised challenge record. -/
def emptyChallenge : StoredChallenge :=
  { ch_exists := false, challenger := 0, deadline := 0, resolved := false }

/-- Pointwise update of a mapping modelled as a total function. -/
def mset {α : Type} (m : Nat → α) (k : Nat) (v : α) : Nat → α :=
  fun j => if j = k then v else m j

/-- Read a relayer record from the association-list mapping (zero record if absent). -/
def rget (l : List (Nat × StoredRelayerInfo)) (k : Nat) : StoredRelayerInfo :=
  match l with
  | [] => emptyRelayer
  | (k', v) :: t => if k' = k then v else rget t k

/-- Write a relayer record into the association-list mapping. -/
def rset (l : List (Nat × StoredRelayerInfo)) (k : Nat) (v : StoredRelayerInfo) :
    List (Nat × StoredRelayerInfo) :=
  match l with
  | [] => [(k, v)]
  | (k', v') :: t => if k' = k then (k, v) :: t else (k', v') :: rset t k v

/-- Sum of the stakes of every relayer record in the ledger. -/
def stakeSum (l : List (Nat × StoredRelayerInfo)) : Nat :=
  (l.map fun p => p.2.stake).sum

/-- Contract storage of `MessageHub`, field for field. -/
structure State where
  owner : Nat
  message_nonce : Nat
  messages : Nat → StoredMessage
  supported_chains : Nat → StoredChainConfig
  chain_count : Nat
  relayers : List (Nat × StoredRelayerInfo)
  min_stake : Nat
  protocol_fee_balance : Nat
  challenge_period : Nat
  challenges : Nat → StoredChallenge

/-- Freshly deployed contract: every storage slot is zero. -/
def initState : State :=
  { owner := 0, message_nonce := 0, messages := fun _ => emptyMessage,
    supported_chains := fun _ => emptyChain, chain_count := 0, relayers := [],
    min_stake := 0, protocol_fee_balance := 0, challenge_period := 0,
    challenges := fun _ => emptyChallenge }

/-- Call environment supplied by the host: caller, attached value, block
timestamp, and the outcome of the (at most one) `transfer_eth` performed by
the call. -/
structure Env where
  msg_sender : Nat
  msg_value : Nat
  block_timestamp : Nat
  transfer_ok : Bool
  deriving Repr, DecidableEq

/-- Typed error values of the contract. -/
inductive Err where
  | ChainNotSupported (chainId : Nat)
  | InsufficientFee (required provided : Nat)
  | MessageNotFound (messageId : Nat)
  | ChallengeExpired (deadline : Nat)
  | ChallengeWindowOpen (deadline : Nat)
  | InsufficientStake (required provided : Nat)
  | Unauthorized (caller : Nat)
  | InvalidProof
  | RelayerNotActive (relayer : Nat)
  | WrongStatus (expected actual : Nat)
  | TransferFailed
  | ZeroAddress
  | AlreadyInitialized
  deriving Repr, DecidableEq

/-- Result of a raw public call: post-state, list of performed
(recipient, amount) value transfers, and the returned value or error. -/
def CallResult : Type := State × List (Nat × Nat) × Except Err Nat

/-- Execution-proof stub from the source: accept proofs of length ≥ 65 whose
first byte is nonzero. -/
def verify_execution_proof (_message_id _destination_chain : Nat) (proof : List Nat)
    (_receiver : Nat) : Bool :=
  decide (65 ≤ proof.length) && decide (proof.headD 0 ≠ 0)

/-- Fraud-proof stub from the source: accept proofs of length ≥ 65 whose
first byte is nonzero. -/
def verify_fraud_proof (_message_id _destination_chain : Nat) (proof : List Nat)
    (_receiver : Nat) : Bool :=
  decide (65 ≤ proof.length) && decide (proof.headD 0 ≠ 0)

/-- Embeds `MessageHub::initialize` (the source method name is reserved in
this development, hence `init_hub`). -/
def init_hub (env : Env) (min_stake challenge_period : Nat) (s : State) : CallResult :=
  if s.owner ≠ 0 then (s, [], .error .AlreadyInitialized)
  else
    ({ s with
       owner := env.msg_sender, min_stake := min_stake,
       challenge_period := challenge_period }, [], .ok 0)

/-- Embeds `MessageHub::send_message`. -/
def send_message (env : Env) (destination_chain target : Nat) (data : List Nat)
    (s : State) : CallResult :=
  if (s.supported_chains destination_chain).enabled = false then
    (s, [], .error (.ChainNotSupported destination_chain))
  else if env.msg_value < (s.supported_chains destination_chain).base_fee then
    (s, [], .error (.InsufficientFee (s.supported_chains destination_chain).base_fee env.msg_value))
  else
    let id := addU s.message_nonce 1
    let newMsg : StoredMessage :=
      { sender := env.msg_sender, destination_chain := destination_chain, target := target,
        data := data, timestamp := env.block_timestamp, fee_paid := env.msg_value,
        status := STATUS_PENDING, relayer := 0 }
    let s1 := { s with message_nonce := id }
    let s2 := { s1 with messages := mset s1.messages id newMsg }
    let s3 := { s2 with protocol_fee_balance := addU s2.protocol_fee_balance env.msg_value }
    (s3, [], .ok id)

/-- Embeds `MessageHub::confirm_delivery`. -/
def confirm_delivery (env : Env) (message_id : Nat) (execution_proof : List Nat)
    (s : State) : CallResult :=
  if (rget s.relayers env.msg_sender).active = false then
    (s, [], .error (.RelayerNotActive env.msg_sender))
  else if (s.messages message_id).timestamp = 0 then
    (s, [], .error (.MessageNotFound message_id))
  else if (s.messages message_id).status ≠ STATUS_PENDING then
    (s, [], .error (.WrongStatus STATUS_PENDING (s.messages message_id).status))
  else if verify_execution_proof message_id (s.messages message_id).destination_chain
      execution_proof
      (s.supported_chains (s.messages message_id).destination_chain).receiver_address
      = false then
    (s, [], .error .InvalidProof)
  else
    let reward := mulU (s.messages message_id).fee_paid RELAYER_REWARD_BPS / 10000
    let m1 := { s.messages message_id with status := STATUS_RELAYED, relayer := env.msg_sender }
    let s1 := { s with messages := mset s.messages message_id m1 }
    let c1 :=
      { s1.challenges message_id with
        ch_exists := true, deadline := addU env.block_timestamp s.challenge_period,
        resolved := false }
    let s2 := { s1 with challenges := mset s1.challenges message_id c1 }
    let s3 := { s2 with protocol_fee_balance := subU s2.protocol_fee_balance reward }
    let r1 :=
      { rget s3.relayers env.msg_sender with
        total_relayed := addU (rget s3.relayers env.msg_sender).total_relayed 1 }
    let s4 := { s3 with relayers := rset s3.relayers env.msg_sender r1 }
    if env.transfer_ok = false then (s4, [], .error .TransferFailed)
    else (s4, [(env.msg_sender, reward)], .ok 0)

/-- Embeds `MessageHub::challenge_message`. -/
def challenge_message (env : Env) (message_id : Nat) (proof_of_fraud : List Nat)
    (s : State) : CallResult :=
  if (s.challenges message_id).ch_exists = false then
    (s, [], .error (.MessageNotFound message_id))
  else if (s.challenges message_id).resolved = true then
    (s, [], .error (.ChallengeExpired (s.challenges message_id).deadline))
  else if (s.challenges message_id).deadline < env.block_timestamp then
    (s, [], .error (.ChallengeExpired (s.challenges message_id).deadline))
  else if (s.messages message_id).status ≠ STATUS_RELAYED then
    (s, [], .error (.WrongStatus STATUS_RELAYED (s.messages message_id).status))
  else if verify_fraud_proof message_id (s.messages message_id).destination_chain
      proof_of_fraud
      (s.supported_chains (s.messages message_id).destination_chain).receiver_address
      = false then
    (s, [], .error .InvalidProof)
  else
    let relayer := (s.messages message_id).relayer
    let stake := (rget s.relayers relayer).stake
    let r1 :=
      { rget s.relayers relayer with
        stake := 0, active := false, slashed := addU (rget s.relayers relayer).slashed stake }
    let s1 := { s with relayers := rset s.relayers relayer r1 }
    let challenger_reward := mulU stake CHALLENGER_REWARD_BPS / 10000
    let fee1 := subU (addU s1.protocol_fee_balance stake) challenger_reward
    let s2 := { s1 with protocol_fee_balance := fee1 }
    let m1 := { s2.messages message_id with status := STATUS_FAILED }
    let s3 := { s2 with messages := mset s2.messages message_id m1 }
    let c1 := { s3.challenges message_id with resolved := true, challenger := env.msg_sender }
    let s4 := { s3 with challenges := mset s3.challenges message_id c1 }
    if env.transfer_ok = false then (s4, [], .error .TransferFailed)
    else (s4, [(env.msg_sender, challenger_reward)], .ok 0)

/-- Embeds `MessageHub::finalize_message`. -/
def finalize_message (env : Env) (message_id : Nat) (s : State) : CallResult :=
  if (s.challenges message_id).ch_exists = false then
    (s, [], .error (.MessageNotFound message_id))
  else if (s.challenges message_id).resolved = true then
    (s, [], .error (.WrongStatus STATUS_RELAYED STATUS_CONFIRMED))
  else if env.block_timestamp ≤ (s.challenges message_id).deadline then
    (s, [], .error (.ChallengeWindowOpen (s.challenges message_id).deadline))
  else if (s.messages message_id).status ≠ STATUS_RELAYED then
    (s, [], .error (.WrongStatus STATUS_RELAYED (s.messages message_id).status))
  else
    let m1 := { s.messages message_id with status := STATUS_CONFIRMED }
    let s1 := { s with messages := mset s.messages message_id m1 }
    let relayer := (s1.messages message_id).relayer
    let r1 :=
      { rget s1.relayers relayer with
        successful := addU (rget s1.relayers relayer).successful 1 }
    let s2 := { s1 with relayers := rset s1.relayers relayer r1 }
    let c1 := { s2.challenges message_id with resolved := true }
    let s3 := { s2 with challenges := mset s2.challenges message_id c1 }
    (s3, [], .ok 0)

/-- Embeds `MessageHub::register_relayer`. -/
def register_relayer (env : Env) (s : State) : CallResult :=
  if env.msg_value < s.min_stake then
    (s, [], .error (.InsufficientStake s.min_stake env.msg_value))
  else
    let r1 :=
      { rget s.relayers env.msg_sender with
        active := true, stake := addU (rget s.relayers env.msg_sender).stake env.msg_value }
    let s1 := { s with relayers := rset s.relayers env.msg_sender r1 }
    (s1, [], .ok 0)

/-- Embeds `MessageHub::exit_relayer`. -/
def exit_relayer (env : Env) (s : State) : CallResult :=
  if (rget s.relayers env.msg_sender).active = false then
    (s, [], .error (.RelayerNotActive env.msg_sender))
  else
    let stake := (rget s.relayers env.msg_sender).stake
    let r1 := { rget s.relayers env.msg_sender with stake := 0, active := false }
    let s1 := { s with relayers := rset s.relayers env.msg_sender r1 }
    if env.transfer_ok = false then (s1, [], .error .TransferFailed)
    else (s1, [(env.msg_sender, stake)], .ok 0)

/-- Embeds `MessageHub::add_chain`. -/
def add_chain (env : Env) (chain_id receiver_address base_fee : Nat) (s : State) :
    CallResult :=
  if env.msg_sender ≠ s.owner then
    (s, [], .error (.Unauthorized env.msg_sender))
  else if receiver_address = 0 then
    (s, [], .error .ZeroAddress)
  else
    let is_new := !(s.supported_chains chain_id).enabled
    let cfg : StoredChainConfig :=
      { enabled := true, receiver_address := receiver_address, base_fee := base_fee }
    let s1 := { s with supported_chains := mset s.supported_chains chain_id cfg }
    let s2 := if is_new = true then { s1 with chain_count := addU s1.chain_count 1 } else s1
    (s2, [], .ok 0)

/-- Embeds `MessageHub::disable_chain`. -/
def disable_chain (env : Env) (chain_id : Nat) (s : State) : CallResult :=
  if env.msg_sender ≠ s.owner then
    (s, [], .error (.Unauthorized env.msg_sender))
  else
    let cfg := { s.supported_chains chain_id with enabled := false }
    ({ s with supported_chains := mset s.supported_chains chain_id cfg }, [], .ok 0)

/-- Embeds `MessageHub::withdraw_fees`. -/
def withdraw_fees (env : Env) (amount : Nat) (s : State) : CallResult :=
  if env.msg_sender ≠ s.owner then
    (s, [], .error (.Unauthorized env.msg_sender))
  else if s.protocol_fee_balance < amount then
    (s, [], .error (.InsufficientFee amount s.protocol_fee_balance))
  else
    let s1 := { s with protocol_fee_balance := s.protocol_fee_balance - amount }
    if env.transfer_ok = false then (s1, [], .error .TransferFailed)
    else (s1, [(s.owner, amount)], .ok 0)

/-- Embeds `MessageHub::transfer_ownership`. -/
def transfer_ownership (env : Env) (new_owner : Nat) (s : State) : CallResult :=
  if env.msg_sender ≠ s.owner then
    (s, [], .error (.Unauthorized env.msg_sender))
  else if new_owner = 0 then
    (s, [], .error .ZeroAddress)
  else
    ({ s with owner := new_owner }, [], .ok 0)

/-- Embeds `MessageHub::get_message_status`. -/
def get_message_status (s : State) (message_id : Nat) : Except Err Nat :=
  if (s.messages message_id).timestamp = 0 then .error (.MessageNotFound message_id)
  else .ok (s.messages message_id).status

/-- Embeds `MessageHub::get_message_sender`. -/
def get_message_sender (s : State) (message_id : Nat) : Except Err Nat :=
  if (s.messages message_id).timestamp = 0 then .error (.MessageNotFound message_id)
  else .ok (s.messages message_id).sender

/-- Embeds `MessageHub::get_message_relayer`. -/
def get_message_relayer (s : State) (message_id : Nat) : Except Err Nat :=
  if (s.messages message_id).timestamp = 0 then .error (.MessageNotFound message_id)
  else .ok (s.messages message_id).relayer

/-- Embeds `MessageHub::get_message_fee`. -/
def get_message_fee (s : State) (message_id : Nat) : Except Err Nat :=
  if (s.messages message_id).timestamp = 0 then .error (.MessageNotFound message_id)
  else .ok (s.messages message_id).fee_paid

/-- Embeds `MessageHub::get_message_destination`. -/
def get_message_destination (s : State) (message_id : Nat) : Except Err Nat :=
  if (s.messages message_id).timestamp = 0 then .error (.MessageNotFound message_id)
  else .ok (s.messages message_id).destination_chain

/-- Embeds `MessageHub::challenge_deadline`: a plain read with no existence
check and no error channel. -/
def challenge_deadline (s : State) (message_id : Nat) : Nat :=
  (s.challenges message_id).deadline

/-- Embeds `MessageHub::message_count`. -/
def message_count (s : State) : Nat :=
  s.message_nonce

/-- The public mutating operations of the hub, with their arguments. -/
inductive Op where
  | init_hub (min_stake challenge_period : Nat)
  | send_message (destination_chain target : Nat) (data : List Nat)
  | confirm_delivery (message_id : Nat) (execution_proof : List Nat)
  | challenge_message (message_id : Nat) (proof_of_fraud : List Nat)
  | finalize_message (message_id : Nat)
  | register_relayer
  | exit_relayer
  | add_chain (chain_id receiver_address base_fee : Nat)
  | disable_chain (chain_id : Nat)
  | withdraw_fees (amount : Nat)
  | transfer_ownership (new_owner : Nat)
  deriving Repr, DecidableEq

/-- Dispatch a public operation to its raw (pre-revert) semantics. -/
def rawStep (op : Op) (env : Env) (s : State) : CallResult :=
  match op with
  | .init_hub a b => init_hub env a b s
  | .send_message dc t d => send_message env dc t d s
  | .confirm_delivery id p => confirm_delivery env id p s
  | .challenge_message id p => challenge_message env id p s
  | .finalize_message id => finalize_message env id s
  | .register_relayer => register_relayer env s
  | .exit_relayer => exit_relayer env s
  | .add_chain c r f => add_chain env c r f s
  | .disable_chain c => disable_chain env c s
  | .withdraw_fees a => withdraw_fees env a s
  | .transfer_ownership o => transfer_ownership env o s

/-- Committed semantics of a public call: the Stylus host reverts every
storage write and value transfer of a call whose entry point returns `Err`. -/
def step (op : Op) (env : Env) (s : State) : CallResult :=
  match rawStep op env s with
  | (s', ts, .ok v) => (s', ts, .ok v)
  | (_, _, .error e) => (s, [], .error e)

/-- Value attached to a call that the contract keeps when the call succeeds
(the payable methods `send_message` and `register_relayer`). -/
def valueIn (op : Op) (env : Env) : Nat :=
  match op with
  | .send_message _ _ _ => env.msg_value
  | .register_relayer => env.msg_value
  | _ => 0

/-- Run a list of calls, accumulating the value deposited into and the value
paid out by the successful calls. -/
def runTrace (s : State) : List (Op × Env) → State × Nat × Nat
  | [] => (s, 0, 0)
  | (op, env) :: rest =>
    let res := step op env s
    let rest2 := runTrace res.1 rest
    match res.2.2 with
    | .ok _ => (rest2.1, valueIn op env + rest2.2.1, (res.2.1.map Prod.snd).sum + rest2.2.2)
    | .error _ => rest2

/-- True when every call of the trace succeeds. -/
def allOk (s : State) : List (Op × Env) → Bool
  | [] => true
  | (op, env) :: rest =>
    match (step op env s).2.2 with
    | .ok _ => allOk (step op env s).1 rest
    | .error _ => false

/-- Deciding equality of call results. -/
instance {ε α : Type} [DecidableEq ε] [DecidableEq α] : DecidableEq (Except ε α) := fun x y =>
  match x, y with
  | .ok a, .ok b =>
    if h : a = b then .isTrue (by rw [h]) else .isFalse (by simp [h])
  | .error a, .error b =>
    if h : a = b then .isTrue (by rw [h]) else .isFalse (by simp [h])
  | .ok _, .error _ => .isFalse (by simp)
  | .error _, .ok _ => .isFalse (by simp)

/-- The state `exit_relayer` builds before its stake-refund transfer: the
caller's stake zeroed and the active flag cleared. -/
def exitMutated (s : State) (a : Nat) : State :=
  { s with relayers := rset s.relayers a { rget s.relayers a with stake := 0, active := false } }

/-- The status transitions the state machine admits in one call:
unchanged, Pending→Relayed, Relayed→Confirmed, or Relayed→Failed. -/
abbrev statusTrans (a b : Nat) : Prop :=
  b = a ∨ (a = STATUS_PENDING ∧ b = STATUS_RELAYED) ∨
    (a = STATUS_RELAYED ∧ b = STATUS_CONFIRMED) ∨ (a = STATUS_RELAYED ∧ b = STATUS_FAILED)

/-- Freshness invariant of the message store: every id above the current
nonce is an unoccupied slot (zero timestamp).  It holds in the initial state
and is preserved by every call while the nonce has not saturated. -/
def MsgInv (s : State) : Prop :=
  ∀ id, s.message_nonce < id → (s.messages id).timestamp = 0

/-- Recognises the `send_message` operation. -/
def isSend : Op → Bool
  | .send_message _ _ _ => true
  | _ => false

/-- A 65-byte proof with nonzero first byte, accepted by both proof stubs. -/
def pf65 : List Nat := List.replicate 65 1

/-- Trace exhibiting the treasury underflow: initialise, enable chain 1
(base fee 10), relayer 2 stakes 100, sender 3 pays fee 10, the owner
withdraws the whole 10-unit treasury, and relayer 2 then confirms, which
debits the 8-unit reward from an empty treasury. -/
def badTrace : List (Op × Env) :=
  [ (.init_hub 100 300, ⟨1, 0, 0, true⟩),
    (.add_chain 1 4 10, ⟨1, 0, 0, true⟩),
    (.register_relayer, ⟨2, 100, 0, true⟩),
    (.send_message 1 5 [], ⟨3, 10, 5, true⟩),
    (.withdraw_fees 10, ⟨1, 0, 6, true⟩),
    (.confirm_delivery 1 pf65, ⟨2, 0, 7, true⟩) ]

/-- The first five calls of `badTrace`, stopping just before the
underflowing confirmation. -/
def badTrace5 : List (Op × Env) := badTrace.take 5

/-- State reached after the first five calls of `badTrace`: message 1 is
Pending with fee 10, relayer 2 is active with stake 100, and the treasury
has been drained to zero by the owner withdrawal. -/
def preBugState : State := (runTrace initState badTrace5).1

/-- Concrete state with a Pending message 1 (fee 10, destination chain 7)
and an active relayer 2 with stake 100. -/
def stP : State :=
  { owner := 1, message_nonce := 1,
    messages := mset (fun _ => emptyMessage) 1 ⟨3, 7, 5, [], 100, 10, STATUS_PENDING, 0⟩,
    supported_chains := mset (fun _ => emptyChain) 7 ⟨true, 4, 10⟩, chain_count := 1,
    relayers := [(2, ⟨true, 0, 0, 0, 100⟩)], min_stake := 100, protocol_fee_balance := 10,
    challenge_period := 300, challenges := fun _ => emptyChallenge }

/-- Concrete state with message 1 Relayed by relayer 2 and an unresolved
challenge window with deadline 1300. -/
def stA : State :=
  { owner := 1, message_nonce := 1,
    messages := mset (fun _ => emptyMessage) 1 ⟨3, 7, 5, [], 100, 10, STATUS_RELAYED, 2⟩,
    supported_chains := mset (fun _ => emptyChain) 7 ⟨true, 4, 10⟩, chain_count := 1,
    relayers := [(2, ⟨true, 1, 0, 0, 100⟩)], min_stake := 100, protocol_fee_balance := 2,
    challenge_period := 300, challenges := mset (fun _ => emptyChallenge) 1 ⟨true, 0, 1300, false⟩ }

/-- Concrete state with message 1 Failed and its challenge already resolved
(the state left by a successful challenge). -/
def stB : State :=
  { owner := 1, message_nonce := 1,
    messages := mset (fun _ => emptyMessage) 1 ⟨3, 7, 5, [], 100, 10, STATUS_FAILED, 2⟩,
    supported_chains := mset (fun _ => emptyChain) 7 ⟨true, 4, 10⟩, chain_count := 1,
    relayers := [(2, ⟨false, 1, 0, 100, 0⟩)], min_stake := 100, protocol_fee_balance := 92,
    challenge_period := 300, challenges := mset (fun _ => emptyChallenge) 1 ⟨true, 9, 1300, true⟩ }

/-- Concrete state with message 1 Confirmed while its challenge record is
still unresolved, exercising the wrong-status guards. -/
def stC : State :=
  { owner := 1, message_nonce := 1,
    messages := mset (fun _ => emptyMessage) 1 ⟨3, 7, 5, [], 100, 10, STATUS_CONFIRMED, 2⟩,
    supported_chains := mset (fun _ => emptyChain) 7 ⟨true, 4, 10⟩, chain_count := 1,
    relayers := [(2, ⟨true, 1, 1, 0, 100⟩)], min_stake := 100, protocol_fee_balance := 2,
    challenge_period := 300, challenges := mset (fun _ => emptyChallenge) 1 ⟨true, 0, 1300, false⟩ }

/-! ### General lemmas about the call semantics -/

theorem mset_self {α : Type} (m : Nat → α) (k : Nat) (v : α) : mset m k v k = v := by
  simp [mset]

theorem rget_rset_self (l : List (Nat × StoredRelayerInfo)) (k : Nat)
    (v : StoredRelayerInfo) : rget (rset l k v) k = v := by
  induction l with
  | nil => simp [rset, rget]
  | cons h t ih =>
    rcases h with ⟨k', v'⟩
    by_cases hk : k' = k
    · simp [rset, rget, hk]
    · simp [rset, rget, hk, ih]

theorem step_raw_ok {op : Op} {env : Env} {s s' : State} {ts : List (Nat × Nat)} {v : Nat}
    (h : rawStep op env s = (s', ts, .ok v)) : step op env s = (s', ts, .ok v) := by
  simp [step, h]

theorem step_raw_err {op : Op} {env : Env} {s s' : State} {ts : List (Nat × Nat)} {e : Err}
    (h : rawStep op env s = (s', ts, .error e)) : step op env s = (s, [], .error e) := by
  simp [step, h]

theorem step_err {op : Op} {env : Env} {s : State} {e : Err}
    (h : (step op env s).2.2 = .error e) : step op env s = (s, [], .error e) := by
  rcases hr : rawStep op env s with ⟨s', ts, r⟩
  cases r with
  | ok v =>
    rw [step_raw_ok hr] at h
    simp at h
  | error e' =>
    rw [step_raw_err hr] at h ⊢
    simp at h
    rw [h]

theorem step_state_cases (op : Op) (env : Env) (s : State) :
    (step op env s).1 = s ∨ step op env s = rawStep op env s := by
  rcases hr : rawStep op env s with ⟨s', ts, r⟩
  cases r with
  | ok v =>
    right
    rw [step_raw_ok hr]
  | error e =>
    left
    rw [step_raw_err hr]

theorem step_eq_raw_ok {op : Op} {env : Env} {s : State} {v : Nat}
    (h : (rawStep op env s).2.2 = .ok v) : step op env s = rawStep op env s := by
  rcases hr : rawStep op env s with ⟨s', ts, r⟩
  cases r with
  | ok w => rw [step_raw_ok hr]
  | error e =>
    rw [hr] at h
    simp at h

/-! ### Per-operation lemmas, following each guard chain of the source -/

theorem status_raw (op : Op) (env : Env) (s : State) (id : Nat)
    (hfresh : (s.messages (addU s.message_nonce 1)).timestamp = 0)
    (hts : (s.messages id).timestamp ≠ 0) :
    statusTrans (s.messages id).status (((rawStep op env s).1.messages id).status) := by
  cases op with
  | init_hub a b =>
    simp only [rawStep, init_hub]
    split_ifs <;> exact Or.inl rfl
  | send_message dc t d =>
    simp only [rawStep, send_message]
    split_ifs with h1 h2
    · exact Or.inl rfl
    · exact Or.inl rfl
    · by_cases hc : id = addU s.message_nonce 1
      · rw [hc] at hts
        exact absurd hfresh hts
      · simp only [mset]
        rw [if_neg hc]
        exact Or.inl rfl
  | confirm_delivery mid p =>
    simp only [rawStep, confirm_delivery]
    split_ifs with h1 h2 h3 h4 h5
    · exact Or.inl rfl
    · exact Or.inl rfl
    · exact Or.inl rfl
    · exact Or.inl rfl
    · by_cases hc : id = mid
      · subst hc
        simp only [mset, if_pos rfl]
        exact Or.inr (Or.inl ⟨not_ne_iff.mp h3, rfl⟩)
      · simp only [mset]
        rw [if_neg hc]
        exact Or.inl rfl
    · by_cases hc : id = mid
      · subst hc
        simp only [mset, if_pos rfl]
        exact Or.inr (Or.inl ⟨not_ne_iff.mp h3, rfl⟩)
      · simp only [mset]
        rw [if_neg hc]
        exact Or.inl rfl
  | challenge_message mid p =>
    simp only [rawStep, challenge_message]
    split_ifs with h1 h2 h3 h4 h5 h6
    · exact Or.inl rfl
    · exact Or.inl rfl
    · exact Or.inl rfl
    · exact Or.inl rfl
    · exact Or.inl rfl
    · by_cases hc : id = mid
      · subst hc
        simp only [mset, if_pos rfl]
        exact Or.inr (Or.inr (Or.inr ⟨not_ne_iff.mp h4, rfl⟩))
      · simp only [mset]
        rw [if_neg hc]
        exact Or.inl rfl
    · by_cases hc : id = mid
      · subst hc
        simp only [mset, if_pos rfl]
        exact Or.inr (Or.inr (Or.inr ⟨not_ne_iff.mp h4, rfl⟩))
      · simp only [mset]
        rw [if_neg hc]
        exact Or.inl rfl
  | finalize_message mid =>
    simp only [rawStep, finalize_message]
    split_ifs with h1 h2 h3 h4
    · exact Or.inl rfl
    · exact Or.inl rfl
    · exact Or.inl rfl
    · exact Or.inl rfl
    · by_cases hc : id = mid
      · subst hc
        simp only [mset, if_pos rfl]
        exact Or.inr (Or.inr (Or.inl ⟨not_ne_iff.mp h4, rfl⟩))
      · simp only [mset]
        rw [if_neg hc]
        exact Or.inl rfl
  | register_relayer =>
    simp only [rawStep, register_relayer]
    split_ifs <;> exact Or.inl rfl
  | exit_relayer =>
    simp only [rawStep, exit_relayer]
    split_ifs <;> exact Or.inl rfl
  | add_chain c r f =>
    simp only [rawStep, add_chain]
    split_ifs <;> exact Or.inl rfl
  | disable_chain c =>
    simp only [rawStep, disable_chain]
    split_ifs <;> exact Or.inl rfl
  | withdraw_fees a =>
    simp only [rawStep, withdraw_fees]
    split_ifs <;> exact Or.inl rfl
  | transfer_ownership o =>
    simp only [rawStep, transfer_ownership]
    split_ifs <;> exact Or.inl rfl

theorem mset_timestamp_keep (m : Nat → StoredMessage) (k : Nat) (v : StoredMessage)
    (hv : v.timestamp = (m k).timestamp) (id : Nat) :
    (mset m k v id).timestamp = (m id).timestamp := by
  by_cases hc : id = k
  · subst hc
    simp only [mset, if_pos rfl]
    exact hv
  · simp only [mset]
    rw [if_neg hc]

theorem raw_nonce_messages (op : Op) (env : Env) (s : State) (h : isSend op = false) :
    (rawStep op env s).1.message_nonce = s.message_nonce ∧
    ∀ id, ((rawStep op env s).1.messages id).timestamp = (s.messages id).timestamp := by
  cases op with
  | send_message dc t d => simp [isSend] at h
  | init_hub a b =>
    simp only [rawStep, init_hub]
    split_ifs <;> exact ⟨rfl, fun id => rfl⟩
  | confirm_delivery mid p =>
    simp only [rawStep, confirm_delivery]
    split_ifs <;>
      first
        | exact ⟨rfl, fun id => rfl⟩
        | exact ⟨rfl, fun id => by
            change (mset s.messages _ _ id).timestamp = _
            apply mset_timestamp_keep
            rfl⟩
  | challenge_message mid p =>
    simp only [rawStep, challenge_message]
    split_ifs <;>
      first
        | exact ⟨rfl, fun id => rfl⟩
        | exact ⟨rfl, fun id => by
            change (mset s.messages _ _ id).timestamp = _
            apply mset_timestamp_keep
            rfl⟩
  | finalize_message mid =>
    simp only [rawStep, finalize_message]
    split_ifs <;>
      first
        | exact ⟨rfl, fun id => rfl⟩
        | exact ⟨rfl, fun id => by
            change (mset s.messages _ _ id).timestamp = _
            apply mset_timestamp_keep
            rfl⟩
  | register_relayer =>
    simp only [rawStep, register_relayer]
    split_ifs <;> exact ⟨rfl, fun id => rfl⟩
  | exit_relayer =>
    simp only [rawStep, exit_relayer]
    split_ifs <;> exact ⟨rfl, fun id => rfl⟩
  | add_chain c r f =>
    simp only [rawStep, add_chain]
    split_ifs <;> exact ⟨rfl, fun id => rfl⟩
  | disable_chain c =>
    simp only [rawStep, disable_chain]
    split_ifs <;> exact ⟨rfl, fun id => rfl⟩
  | withdraw_fees a =>
    simp only [rawStep, withdraw_fees]
    split_ifs <;> exact ⟨rfl, fun id => rfl⟩
  | transfer_ownership o =>
    simp only [rawStep, transfer_ownership]
    split_ifs <;> exact ⟨rfl, fun id => rfl⟩

theorem raw_MsgInv (op : Op) (env : Env) (s : State) (hInv : MsgInv s)
    (hlt : s.message_nonce + 1 < U256MOD) : MsgInv (rawStep op env s).1 := by
  have gen : ∀ op2 : Op, isSend op2 = false → MsgInv (rawStep op2 env s).1 := by
    intro op2 h2
    obtain ⟨hn, hm⟩ := raw_nonce_messages op2 env s h2
    intro id hid
    rw [hm id]
    exact hInv id (hn ▸ hid)
  cases op with
  | send_message dc t d =>
    simp only [rawStep, send_message]
    split_ifs with h1 h2
    · exact hInv
    · exact hInv
    · intro id hid
      have hadd : addU s.message_nonce 1 = s.message_nonce + 1 := Nat.mod_eq_of_lt hlt
      have hid2 : addU s.message_nonce 1 < id := hid
      rw [hadd] at hid2
      have hne : id ≠ addU s.message_nonce 1 := by
        rw [hadd]
        omega
      simp only [mset]
      rw [if_neg hne]
      exact hInv id (by omega)
  | init_hub a b => exact gen _ rfl
  | confirm_delivery mid p => exact gen _ rfl
  | challenge_message mid p => exact gen _ rfl
  | finalize_message mid => exact gen _ rfl
  | register_relayer => exact gen _ rfl
  | exit_relayer => exact gen _ rfl
  | add_chain c r f => exact gen _ rfl
  | disable_chain c => exact gen _ rfl
  | withdraw_fees a => exact gen _ rfl
  | transfer_ownership o => exact gen _ rfl

theorem send_raw_ok (env : Env) (dc t : Nat) (d : List Nat) (s : State)
    (h1 : (s.supported_chains dc).enabled = true)
    (h2 : (s.supported_chains dc).base_fee ≤ env.msg_value) :
    (rawStep (.send_message dc t d) env s).2.2 = .ok (addU s.message_nonce 1) ∧
    (rawStep (.send_message dc t d) env s).1.message_nonce = addU s.message_nonce 1 := by
  simp only [rawStep, send_message]
  rw [if_neg (by simp [h1]), if_neg (Nat.not_lt.mpr h2)]
  exact ⟨rfl, rfl⟩

theorem confirm_raw_wrong_status (env : Env) (mid : Nat) (p : List Nat) (s : State)
    (ha : (rget s.relayers env.msg_sender).active = true)
    (hts : (s.messages mid).timestamp ≠ 0)
    (hst : (s.messages mid).status ≠ STATUS_PENDING) :
    rawStep (.confirm_delivery mid p) env s =
      (s, [], .error (.WrongStatus STATUS_PENDING (s.messages mid).status)) := by
  simp only [rawStep, confirm_delivery]
  rw [if_neg (by simp [ha]), if_neg hts, if_pos hst]

theorem confirm_raw_ok (env : Env) (mid : Nat) (p : List Nat) (s : State)
    (ha : (rget s.relayers env.msg_sender).active = true)
    (hts : (s.messages mid).timestamp ≠ 0)
    (hst : (s.messages mid).status = STATUS_PENDING)
    (hp : verify_execution_proof mid (s.messages mid).destination_chain p
      (s.supported_chains (s.messages mid).destination_chain).receiver_address = true)
    (htr : env.transfer_ok = true) :
    (rawStep (.confirm_delivery mid p) env s).2 =
      ([(env.msg_sender, mulU (s.messages mid).fee_paid RELAYER_REWARD_BPS / 10000)], .ok 0) ∧
    (rawStep (.confirm_delivery mid p) env s).1.protocol_fee_balance =
      subU s.protocol_fee_balance (mulU (s.messages mid).fee_paid RELAYER_REWARD_BPS / 10000) := by
  simp only [rawStep, confirm_delivery]
  rw [if_neg (by simp [ha]), if_neg hts, if_neg (by simp [hst]), if_neg (by simp [hp]),
    if_neg (by simp [htr])]
  exact ⟨rfl, rfl⟩

theorem challenge_raw_expired (env : Env) (mid : Nat) (p : List Nat) (s : State)
    (hch : (s.challenges mid).ch_exists = true)
    (hres : (s.challenges mid).resolved = false)
    (hlt : (s.challenges mid).deadline < env.block_timestamp) :
    rawStep (.challenge_message mid p) env s =
      (s, [], .error (.ChallengeExpired (s.challenges mid).deadline)) := by
  simp only [rawStep, challenge_message]
  rw [if_neg (by simp [hch]), if_neg (by simp [hres]), if_pos hlt]

theorem challenge_raw_wrong_status (env : Env) (mid : Nat) (p : List Nat) (s : State)
    (hch : (s.challenges mid).ch_exists = true)
    (hres : (s.challenges mid).resolved = false)
    (hle : env.block_timestamp ≤ (s.challenges mid).deadline)
    (hst : (s.messages mid).status ≠ STATUS_RELAYED) :
    rawStep (.challenge_message mid p) env s =
      (s, [], .error (.WrongStatus STATUS_RELAYED (s.messages mid).status)) := by
  simp only [rawStep, challenge_message]
  rw [if_neg (by simp [hch]), if_neg (by simp [hres]), if_neg (Nat.not_lt.mpr hle), if_pos hst]

theorem challenge_raw_ok (env : Env) (mid : Nat) (p : List Nat) (s : State)
    (hch : (s.challenges mid).ch_exists = true)
    (hres : (s.challenges mid).resolved = false)
    (hle : env.block_timestamp ≤ (s.challenges mid).deadline)
    (hst : (s.messages mid).status = STATUS_RELAYED)
    (hp : verify_fraud_proof mid (s.messages mid).destination_chain p
      (s.supported_chains (s.messages mid).destination_chain).receiver_address = true)
    (htr : env.transfer_ok = true) :
    (rawStep (.challenge_message mid p) env s).2 =
      ([(env.msg_sender,
          mulU (rget s.relayers (s.messages mid).relayer).stake CHALLENGER_REWARD_BPS / 10000)],
        .ok 0) ∧
    (rawStep (.challenge_message mid p) env s).1.protocol_fee_balance =
      subU (addU s.protocol_fee_balance (rget s.relayers (s.messages mid).relayer).stake)
        (mulU (rget s.relayers (s.messages mid).relayer).stake CHALLENGER_REWARD_BPS / 10000) ∧
    (rget (rawStep (.challenge_message mid p) env s).1.relayers
      (s.messages mid).relayer).stake = 0 := by
  simp only [rawStep, challenge_message]
  rw [if_neg (by simp [hch]), if_neg (by simp [hres]), if_neg (Nat.not_lt.mpr hle),
    if_neg (by simp [hst]), if_neg (by simp [hp]), if_neg (by simp [htr])]
  refine ⟨rfl, rfl, ?_⟩
  change (rget (rset s.relayers _ _) _).stake = 0
  rw [rget_rset_self]

theorem finalize_raw_resolved (env : Env) (mid : Nat) (s : State)
    (hch : (s.challenges mid).ch_exists = true)
    (hres : (s.challenges mid).resolved = true) :
    rawStep (.finalize_message mid) env s =
      (s, [], .error (.WrongStatus STATUS_RELAYED STATUS_CONFIRMED)) := by
  simp only [rawStep, finalize_message]
  rw [if_neg (by simp [hch]), if_pos hres]

theorem finalize_raw_window (env : Env) (mid : Nat) (s : State)
    (hch : (s.challenges mid).ch_exists = true)
    (hres : (s.challenges mid).resolved = false)
    (hle : env.block_timestamp ≤ (s.challenges mid).deadline) :
    rawStep (.finalize_message mid) env s =
      (s, [], .error (.ChallengeWindowOpen (s.challenges mid).deadline)) := by
  simp only [rawStep, finalize_message]
  rw [if_neg (by simp [hch]), if_neg (by simp [hres]), if_pos hle]

theorem finalize_raw_wrong_status (env : Env) (mid : Nat) (s : State)
    (hch : (s.challenges mid).ch_exists = true)
    (hres : (s.challenges mid).resolved = false)
    (hgt : (s.challenges mid).deadline < env.block_timestamp)
    (hst : (s.messages mid).status ≠ STATUS_RELAYED) :
    rawStep (.finalize_message mid) env s =
      (s, [], .error (.WrongStatus STATUS_RELAYED (s.messages mid).status)) := by
  simp only [rawStep, finalize_message]
  rw [if_neg (by simp [hch]), if_neg (by simp [hres]), if_neg (Nat.not_le.mpr hgt), if_pos hst]

theorem finalize_raw_ok (env : Env) (mid : Nat) (s : State)
    (hch : (s.challenges mid).ch_exists = true)
    (hres : (s.challenges mid).resolved = false)
    (hgt : (s.challenges mid).deadline < env.block_timestamp)
    (hst : (s.messages mid).status = STATUS_RELAYED) :
    (rawStep (.finalize_message mid) env s).2.2 = .ok 0 := by
  simp only [rawStep, finalize_message]
  rw [if_neg (by simp [hch]), if_neg (by simp [hres]), if_neg (Nat.not_le.mpr hgt),
    if_neg (by simp [hst])]

theorem add_chain_raw (env : Env) (cid rcv fee : Nat) (s : State)
    (hown : env.msg_sender = s.owner) (hrcv : rcv ≠ 0) :
    (rawStep (.add_chain cid rcv fee) env s).2.2 = .ok 0 ∧
    (rawStep (.add_chain cid rcv fee) env s).1.supported_chains cid =
      { enabled := true, receiver_address := rcv, base_fee := fee } ∧
    ((s.supported_chains cid).enabled = true →
      (rawStep (.add_chain cid rcv fee) env s).1.chain_count = s.chain_count) ∧
    ((s.supported_chains cid).enabled = false →
      (rawStep (.add_chain cid rcv fee) env s).1.chain_count = addU s.chain_count 1) := by
  simp only [rawStep, add_chain]
  rw [if_neg (by simp [hown]), if_neg hrcv]
  refine ⟨?_, ?_, ?_, ?_⟩
  · split_ifs <;> rfl
  · split_ifs <;> exact mset_self _ _ _
  · intro henb
    simp [henb]
  · intro henb
    simp [henb]

theorem stA_MsgInv : MsgInv stA := by
  intro id hid
  have h1 : (1 : Nat) < id := hid
  simp only [stA, mset]
  rw [if_neg (by omega)]
  rfl

/-! ### The claims -/

/-- Claim C1 (fund conservation) is violated by the code: `badTrace` is a
sequence of six successful public calls (all guards pass) after which the
treasury accumulator has wrapped to `2^256 - 8`, the single relayer stake
sums to 100, and 18 units were paid out, while only 110 units (fee 10 plus
stake 100) were ever deposited — so treasury + stakes + payouts no longer
equals deposits.  The break happens because `confirm_delivery` debits the
relayer reward from the treasury with an unchecked subtraction after the
owner has already withdrawn the fee. -/
theorem claim_C1_fund_conservation_violated :
    allOk initState badTrace = true ∧
    (runTrace initState badTrace).2.1 = 110 ∧
    (runTrace initState badTrace).2.2 = 18 ∧
    (runTrace initState badTrace).1.protocol_fee_balance = U256MOD - 8 ∧
    stakeSum (runTrace initState badTrace).1.relayers = 100 ∧
    (runTrace initState badTrace).1.protocol_fee_balance +
        stakeSum (runTrace initState badTrace).1.relayers +
        (runTrace initState badTrace).2.2 ≠
      (runTrace initState badTrace).2.1 := by
  decide

/-- Claim C2 (status monotonicity): in every state whose message store is
fresh above the nonce (true of every reachable state while the nonce has not
saturated), no public call moves any existing message's status other than
along Pending→Relayed→Confirmed or Pending→Relayed→Failed; the freshness
invariant is itself preserved by every call; and each of `confirm_delivery`,
`challenge_message` and `finalize_message`, when its earlier guards pass but
the message's status is not the expected one, fails with `WrongStatus`
carrying the expected and actual status. -/
theorem claim_C2_status_monotonicity :
    (∀ (op : Op) (env : Env) (s : State) (id : Nat), MsgInv s →
      s.message_nonce + 1 < U256MOD → (s.messages id).timestamp ≠ 0 →
      statusTrans (s.messages id).status (((step op env s).1.messages id).status)) ∧
    (∀ (op : Op) (env : Env) (s : State), MsgInv s → s.message_nonce + 1 < U256MOD →
      MsgInv (step op env s).1) ∧
    (∀ (env : Env) (s : State) (id : Nat) (p : List Nat),
      (rget s.relayers env.msg_sender).active = true → (s.messages id).timestamp ≠ 0 →
      (s.messages id).status ≠ STATUS_PENDING →
      (step (.confirm_delivery id p) env s).2.2 =
        .error (.WrongStatus STATUS_PENDING (s.messages id).status)) ∧
    (∀ (env : Env) (s : State) (id : Nat) (p : List Nat),
      (s.challenges id).ch_exists = true → (s.challenges id).resolved = false →
      env.block_timestamp ≤ (s.challenges id).deadline →
      (s.messages id).status ≠ STATUS_RELAYED →
      (step (.challenge_message id p) env s).2.2 =
        .error (.WrongStatus STATUS_RELAYED (s.messages id).status)) ∧
    (∀ (env : Env) (s : State) (id : Nat),
      (s.challenges id).ch_exists = true → (s.challenges id).resolved = false →
      (s.challenges id).deadline < env.block_timestamp →
      (s.messages id).status ≠ STATUS_RELAYED →
      (step (.finalize_message id) env s).2.2 =
        .error (.WrongStatus STATUS_RELAYED (s.messages id).status)) := by
  refine ⟨?_, ?_, ?_, ?_, ?_⟩
  · intro op env s id hInv hlt hts
    have hadd : addU s.message_nonce 1 = s.message_nonce + 1 := Nat.mod_eq_of_lt hlt
    have hfresh : (s.messages (addU s.message_nonce 1)).timestamp = 0 := by
      apply hInv
      rw [hadd]
      omega
    rcases step_state_cases op env s with hcase | hcase
    · rw [hcase]
      exact Or.inl rfl
    · rw [hcase]
      exact status_raw op env s id hfresh hts
  · intro op env s hInv hlt
    rcases step_state_cases op env s with hcase | hcase
    · rw [hcase]
      exact hInv
    · rw [hcase]
      exact raw_MsgInv op env s hInv hlt
  · intro env s id p ha hts hst
    rw [step_raw_err (confirm_raw_wrong_status env id p s ha hts hst)]
  · intro env s id p hch hres hle hst
    rw [step_raw_err (challenge_raw_wrong_status env id p s hch hres hle hst)]
  · intro env s id hch hres hgt hst
    rw [step_raw_err (finalize_raw_wrong_status env id s hch hres hgt hst)]

/-- Witness for claim C2, instantiated at the concrete states `stA`
(Relayed message with open challenge) and `stC` (Confirmed message with an
unresolved challenge record). -/
theorem claim_C2_status_monotonicity_witness :
    MsgInv stA ∧ stA.message_nonce + 1 < U256MOD ∧ (stA.messages 1).timestamp ≠ 0 ∧
    statusTrans ((stA.messages 1).status)
      (((step (.finalize_message 1) ⟨9, 0, 1301, true⟩ stA).1.messages 1).status) ∧
    MsgInv (step (.finalize_message 1) ⟨9, 0, 1301, true⟩ stA).1 ∧
    (rget stA.relayers 2).active = true ∧ (stA.messages 1).status ≠ STATUS_PENDING ∧
    (step (.confirm_delivery 1 pf65) ⟨2, 0, 1400, true⟩ stA).2.2 =
      .error (.WrongStatus STATUS_PENDING (stA.messages 1).status) ∧
    (stC.challenges 1).ch_exists = true ∧ (stC.messages 1).status ≠ STATUS_RELAYED ∧
    (step (.challenge_message 1 pf65) ⟨9, 0, 1200, true⟩ stC).2.2 =
      .error (.WrongStatus STATUS_RELAYED (stC.messages 1).status) ∧
    (step (.finalize_message 1) ⟨9, 0, 1400, true⟩ stC).2.2 =
      .error (.WrongStatus STATUS_RELAYED (stC.messages 1).status) :=
  ⟨stA_MsgInv, by decide, by decide,
   claim_C2_status_monotonicity.1 _ _ _ _ stA_MsgInv (by decide) (by decide),
   claim_C2_status_monotonicity.2.1 _ _ _ stA_MsgInv (by decide),
   by decide, by decide,
   claim_C2_status_monotonicity.2.2.1 _ _ _ _ (by decide) (by decide) (by decide),
   by decide, by decide,
   claim_C2_status_monotonicity.2.2.2.1 _ _ _ _ (by decide) (by decide) (by decide) (by decide),
   claim_C2_status_monotonicity.2.2.2.2 _ _ _ (by decide) (by decide) (by decide) (by decide)⟩

/-- Claim C3 (deadline boundary semantics): for a Relayed message with an
existing unresolved challenge of deadline `d` and a valid fraud proof,
challenging at `now = d` succeeds, challenging at `now = d + 1` fails with
`ChallengeExpired d`, finalizing at `now = d` fails with
`ChallengeWindowOpen d`, and finalizing at `now = d + 1` succeeds. -/
theorem claim_C3_deadline_boundary (s : State) (id : Nat) (p : List Nat) (c v c2 v2 : Nat)
    (hch : (s.challenges id).ch_exists = true)
    (hres : (s.challenges id).resolved = false)
    (hst : (s.messages id).status = STATUS_RELAYED)
    (hp : verify_fraud_proof id (s.messages id).destination_chain p
      (s.supported_chains (s.messages id).destination_chain).receiver_address = true) :
    (step (.challenge_message id p) ⟨c, v, (s.challenges id).deadline, true⟩ s).2.2 = .ok 0 ∧
    (step (.challenge_message id p) ⟨c, v, (s.challenges id).deadline + 1, true⟩ s).2.2 =
      .error (.ChallengeExpired (s.challenges id).deadline) ∧
    (step (.finalize_message id) ⟨c2, v2, (s.challenges id).deadline, true⟩ s).2.2 =
      .error (.ChallengeWindowOpen (s.challenges id).deadline) ∧
    (step (.finalize_message id) ⟨c2, v2, (s.challenges id).deadline + 1, true⟩ s).2.2 =
      .ok 0 := by
  refine ⟨?_, ?_, ?_, ?_⟩
  · obtain ⟨h2, _, _⟩ :=
      challenge_raw_ok ⟨c, v, (s.challenges id).deadline, true⟩ id p s hch hres (le_refl _)
        hst hp rfl
    have hok : (rawStep (.challenge_message id p)
        ⟨c, v, (s.challenges id).deadline, true⟩ s).2.2 = .ok 0 := by
      rw [h2]
    rw [step_eq_raw_ok hok]
    exact hok
  · rw [step_raw_err (challenge_raw_expired ⟨c, v, (s.challenges id).deadline + 1, true⟩ id p s
      hch hres (Nat.lt_succ_self _))]
  · rw [step_raw_err (finalize_raw_window ⟨c2, v2, (s.challenges id).deadline, true⟩ id s
      hch hres (le_refl _))]
  · have hok := finalize_raw_ok ⟨c2, v2, (s.challenges id).deadline + 1, true⟩ id s
      hch hres (Nat.lt_succ_self _) hst
    rw [step_eq_raw_ok hok]
    exact hok

/-- Witness for claim C3 at the concrete state `stA`, whose challenge for
message 1 has deadline 1300. -/
theorem claim_C3_deadline_boundary_witness :
    (stA.challenges 1).ch_exists = true ∧ (stA.challenges 1).resolved = false ∧
    (stA.messages 1).status = STATUS_RELAYED ∧
    verify_fraud_proof 1 (stA.messages 1).destination_chain pf65
      (stA.supported_chains (stA.messages 1).destination_chain).receiver_address = true ∧
    ((step (.challenge_message 1 pf65) ⟨9, 0, (stA.challenges 1).deadline, true⟩ stA).2.2 =
        .ok 0 ∧
      (step (.challenge_message 1 pf65) ⟨9, 0, (stA.challenges 1).deadline + 1, true⟩ stA).2.2 =
        .error (.ChallengeExpired (stA.challenges 1).deadline) ∧
      (step (.finalize_message 1) ⟨8, 0, (stA.challenges 1).deadline, true⟩ stA).2.2 =
        .error (.ChallengeWindowOpen (stA.challenges 1).deadline) ∧
      (step (.finalize_message 1) ⟨8, 0, (stA.challenges 1).deadline + 1, true⟩ stA).2.2 =
        .ok 0) :=
  ⟨by decide, by decide, by decide, by decide,
   claim_C3_deadline_boundary stA 1 pf65 9 0 8 0 (by decide) (by decide) (by decide)
     (by decide)⟩

/-- Claim C4 (atomicity on error): under the host's revert-on-error
semantics embedded in `step`, every public call that returns an error leaves
the state exactly as it was and performs no value transfer; in particular
`exit_relayer` with a failing stake-refund transfer mutates the ledger
(stake zeroed, active flag cleared) before the transfer, and that mutation
is rolled back, the committed result being `TransferFailed` with the
pre-call state. -/
theorem claim_C4_atomicity_on_error :
    (∀ (op : Op) (env : Env) (s : State) (e : Err),
      (step op env s).2.2 = .error e → step op env s = (s, [], .error e)) ∧
    (∀ (env : Env) (s : State),
      (rget s.relayers env.msg_sender).active = true → env.transfer_ok = false →
      rawStep .exit_relayer env s =
        (exitMutated s env.msg_sender, [], .error .TransferFailed) ∧
      (rget (exitMutated s env.msg_sender).relayers env.msg_sender).stake = 0 ∧
      (rget (exitMutated s env.msg_sender).relayers env.msg_sender).active = false ∧
      step .exit_relayer env s = (s, [], .error .TransferFailed)) := by
  constructor
  · intro op env s e h
    exact step_err h
  · intro env s ha htr
    have hraw : rawStep .exit_relayer env s =
        (exitMutated s env.msg_sender, [], .error .TransferFailed) := by
      simp only [rawStep, exit_relayer, exitMutated]
      rw [if_neg (by simp [ha]), if_pos htr]
    have hr : rget (exitMutated s env.msg_sender).relayers env.msg_sender =
        { rget s.relayers env.msg_sender with stake := 0, active := false } := by
      simp only [exitMutated]
      exact rget_rset_self _ _ _
    exact ⟨hraw, by rw [hr], by rw [hr], step_raw_err hraw⟩

/-- Witness for claim C4: a failing `disable_chain` (unauthorized caller)
reverts to `stA`, and `exit_relayer` by relayer 2 with a failing transfer
first zeroes the stake and clears the active flag and is then rolled back. -/
theorem claim_C4_atomicity_on_error_witness :
    ((step (.disable_chain 7) ⟨5, 0, 0, true⟩ stA).2.2 = .error (.Unauthorized 5)) ∧
    step (.disable_chain 7) ⟨5, 0, 0, true⟩ stA = (stA, [], .error (.Unauthorized 5)) ∧
    (rget stA.relayers 2).active = true ∧
    rawStep .exit_relayer ⟨2, 0, 0, false⟩ stA =
      (exitMutated stA 2, [], .error .TransferFailed) ∧
    (rget (exitMutated stA 2).relayers 2).stake = 0 ∧
    (rget (exitMutated stA 2).relayers 2).active = false ∧
    step .exit_relayer ⟨2, 0, 0, false⟩ stA = (stA, [], .error .TransferFailed) :=
  ⟨by decide, claim_C4_atomicity_on_error.1 _ _ _ _ (by decide), by decide,
   (claim_C4_atomicity_on_error.2 ⟨2, 0, 0, false⟩ stA (by decide) rfl).1,
   (claim_C4_atomicity_on_error.2 ⟨2, 0, 0, false⟩ stA (by decide) rfl).2.1,
   (claim_C4_atomicity_on_error.2 ⟨2, 0, 0, false⟩ stA (by decide) rfl).2.2.1,
   (claim_C4_atomicity_on_error.2 ⟨2, 0, 0, false⟩ stA (by decide) rfl).2.2.2⟩

/-- Claim C5 (treasury non-negativity) is violated by the code: after the
five successful calls of `badTrace5` the treasury is 0 while the pending
message's confirmation reward is 8; `confirm_delivery` nevertheless succeeds
and its debit wraps the treasury to `2^256 - 8`, so the subtraction was not
bounded by the current balance. -/
theorem claim_C5_treasury_underflow :
    allOk initState badTrace5 = true ∧
    preBugState.protocol_fee_balance = 0 ∧
    mulU (preBugState.messages 1).fee_paid RELAYER_REWARD_BPS / 10000 = 8 ∧
    (step (.confirm_delivery 1 pf65) ⟨2, 0, 7, true⟩ preBugState).2.2 = .ok 0 ∧
    (step (.confirm_delivery 1 pf65) ⟨2, 0, 7, true⟩ preBugState).1.protocol_fee_balance =
      U256MOD - 8 := by
  decide

/-- Claim C6 is refuted for the challenge-deadline query: `challenge_deadline`
has no error channel at all; on the freshly deployed state, where message 1
does not exist (zero timestamp), it returns the value 0 instead of failing
with `MessageNotFound`. -/
theorem claim_C6_deadline_query_counterexample :
    (initState.messages 1).timestamp = 0 ∧ challenge_deadline initState 1 = 0 :=
  ⟨rfl, rfl⟩

/-- Claim C6 as amended: the five message getters (status, sender, relayer,
fee, destination) fail with `MessageNotFound` on a nonexistent message id
(zero timestamp), while the challenge-deadline query never fails and simply
returns the stored deadline (zero for a nonexistent challenge). -/
theorem claim_C6_queries_not_found_amended (s : State) (id : Nat)
    (h : (s.messages id).timestamp = 0) :
    get_message_status s id = .error (.MessageNotFound id) ∧
    get_message_sender s id = .error (.MessageNotFound id) ∧
    get_message_relayer s id = .error (.MessageNotFound id) ∧
    get_message_fee s id = .error (.MessageNotFound id) ∧
    get_message_destination s id = .error (.MessageNotFound id) ∧
    challenge_deadline s id = (s.challenges id).deadline := by
  refine ⟨?_, ?_, ?_, ?_, ?_, rfl⟩ <;>
    simp [get_message_status, get_message_sender, get_message_relayer, get_message_fee,
      get_message_destination, h]

/-- Witness for the amended claim C6 at state `stA` and the nonexistent
message id 99. -/
theorem claim_C6_queries_not_found_amended_witness :
    (stA.messages 99).timestamp = 0 ∧
    (get_message_status stA 99 = .error (.MessageNotFound 99) ∧
      get_message_sender stA 99 = .error (.MessageNotFound 99) ∧
      get_message_relayer stA 99 = .error (.MessageNotFound 99) ∧
      get_message_fee stA 99 = .error (.MessageNotFound 99) ∧
      get_message_destination stA 99 = .error (.MessageNotFound 99) ∧
      challenge_deadline stA 99 = (stA.challenges 99).deadline) :=
  ⟨by decide, claim_C6_queries_not_found_amended stA 99 (by decide)⟩

/-- Claim C7 (nonce monotonicity): a successful `send_message` returns
exactly the previous nonce plus one (exactly one greater while the nonce has
not saturated the 256-bit word) and stores it as the new nonce; a failed
`send_message` leaves the nonce unchanged; no other operation changes the
nonce; and the nonce starts at 0, so the first successful send returns 1. -/
theorem claim_C7_nonce_monotonicity :
    (∀ (env : Env) (s : State) (dc t : Nat) (d : List Nat),
      (s.supported_chains dc).enabled = true →
      (s.supported_chains dc).base_fee ≤ env.msg_value →
      (step (.send_message dc t d) env s).2.2 = .ok (addU (message_count s) 1) ∧
      message_count (step (.send_message dc t d) env s).1 = addU (message_count s) 1 ∧
      (message_count s + 1 < U256MOD → addU (message_count s) 1 = message_count s + 1)) ∧
    (∀ (op : Op) (env : Env) (s : State) (e : Err), (step op env s).2.2 = .error e →
      message_count (step op env s).1 = message_count s) ∧
    (∀ (op : Op) (env : Env) (s : State), isSend op = false →
      message_count (step op env s).1 = message_count s) ∧
    message_count initState = 0 := by
  refine ⟨?_, ?_, ?_, rfl⟩
  · intro env s dc t d h1 h2
    obtain ⟨hok, hn⟩ := send_raw_ok env dc t d s h1 h2
    rw [step_eq_raw_ok hok]
    exact ⟨hok, hn, fun hlt => Nat.mod_eq_of_lt hlt⟩
  · intro op env s e h
    rw [step_err h]
  · intro op env s h
    rcases step_state_cases op env s with hcase | hcase
    · rw [hcase]
    · rw [hcase]
      exact (raw_nonce_messages op env s h).1

/-- Witness for claim C7 at state `stP` (nonce 1, chain 7 enabled with base
fee 10): a successful send returns 2, a send to the unsupported chain 9
fails and leaves the nonce unchanged, and `exit_relayer` leaves it
unchanged. -/
theorem claim_C7_nonce_monotonicity_witness :
    (stP.supported_chains 7).enabled = true ∧
    (stP.supported_chains 7).base_fee ≤ 10 ∧
    ((step (.send_message 7 5 []) ⟨3, 10, 50, true⟩ stP).2.2 =
        .ok (addU (message_count stP) 1) ∧
      message_count (step (.send_message 7 5 []) ⟨3, 10, 50, true⟩ stP).1 =
        addU (message_count stP) 1 ∧
      (message_count stP + 1 < U256MOD →
        addU (message_count stP) 1 = message_count stP + 1)) ∧
    ((step (.send_message 9 5 []) ⟨3, 10, 50, true⟩ stP).2.2 =
      .error (.ChainNotSupported 9)) ∧
    message_count (step (.send_message 9 5 []) ⟨3, 10, 50, true⟩ stP).1 = message_count stP ∧
    isSend .exit_relayer = false ∧
    message_count (step .exit_relayer ⟨2, 0, 0, true⟩ stP).1 = message_count stP :=
  ⟨by decide, by decide,
   claim_C7_nonce_monotonicity.1 ⟨3, 10, 50, true⟩ stP 7 5 [] (by decide) (by decide),
   by decide,
   claim_C7_nonce_monotonicity.2.1 (.send_message 9 5 []) ⟨3, 10, 50, true⟩ stP
     (.ChainNotSupported 9) (by decide),
   rfl,
   claim_C7_nonce_monotonicity.2.2.1 .exit_relayer ⟨2, 0, 0, true⟩ stP rfl⟩

/-- Claim C8 (basis-point reward arithmetic): a successful
`confirm_delivery` transfers exactly `fee_paid * 8000 / 10000` (floor) to
the confirming relayer and debits the same amount from the treasury, and a
successful `challenge_message` transfers exactly `stake * 1000 / 10000`
(floor) of the slashed relayer's entire stake to the challenger, credits the
treasury with the stake minus that reward, and zeroes the relayer's
stake. -/
theorem claim_C8_bps_reward_arithmetic (env : Env) (s : State) (id : Nat) (p : List Nat) :
    ((rget s.relayers env.msg_sender).active = true →
      (s.messages id).timestamp ≠ 0 →
      (s.messages id).status = STATUS_PENDING →
      verify_execution_proof id (s.messages id).destination_chain p
        (s.supported_chains (s.messages id).destination_chain).receiver_address = true →
      env.transfer_ok = true →
      (step (.confirm_delivery id p) env s).2.1 =
        [(env.msg_sender, mulU (s.messages id).fee_paid RELAYER_REWARD_BPS / 10000)] ∧
      (step (.confirm_delivery id p) env s).1.protocol_fee_balance =
        subU s.protocol_fee_balance
          (mulU (s.messages id).fee_paid RELAYER_REWARD_BPS / 10000)) ∧
    ((s.challenges id).ch_exists = true →
      (s.challenges id).resolved = false →
      env.block_timestamp ≤ (s.challenges id).deadline →
      (s.messages id).status = STATUS_RELAYED →
      verify_fraud_proof id (s.messages id).destination_chain p
        (s.supported_chains (s.messages id).destination_chain).receiver_address = true →
      env.transfer_ok = true →
      (step (.challenge_message id p) env s).2.1 =
        [(env.msg_sender,
          mulU (rget s.relayers (s.messages id).relayer).stake CHALLENGER_REWARD_BPS / 10000)] ∧
      (step (.challenge_message id p) env s).1.protocol_fee_balance =
        subU (addU s.protocol_fee_balance (rget s.relayers (s.messages id).relayer).stake)
          (mulU (rget s.relayers (s.messages id).relayer).stake CHALLENGER_REWARD_BPS / 10000) ∧
      (rget (step (.challenge_message id p) env s).1.relayers
        (s.messages id).relayer).stake = 0) := by
  constructor
  · intro ha hts hst hp htr
    obtain ⟨h2, hbal⟩ := confirm_raw_ok env id p s ha hts hst hp htr
    have hok : (rawStep (.confirm_delivery id p) env s).2.2 = .ok 0 := by
      rw [h2]
    rw [step_eq_raw_ok hok]
    exact ⟨by rw [h2], hbal⟩
  · intro hch hres hle hst hp htr
    obtain ⟨h2, hbal, hstake⟩ := challenge_raw_ok env id p s hch hres hle hst hp htr
    have hok : (rawStep (.challenge_message id p) env s).2.2 = .ok 0 := by
      rw [h2]
    rw [step_eq_raw_ok hok]
    exact ⟨by rw [h2], hbal, hstake⟩

/-- Witness for claim C8: confirming the Pending message of `stP` (fee 10)
pays the relayer 8 and debits 8 from the treasury; challenging the Relayed
message of `stA` (relayer stake 100) pays the challenger 10, credits the
treasury with 90, and zeroes the stake. -/
theorem claim_C8_bps_reward_arithmetic_witness :
    ((rget stP.relayers 2).active = true ∧ (stP.messages 1).timestamp ≠ 0 ∧
      (stP.messages 1).status = STATUS_PENDING ∧
      verify_execution_proof 1 (stP.messages 1).destination_chain pf65
        (stP.supported_chains (stP.messages 1).destination_chain).receiver_address = true ∧
      (step (.confirm_delivery 1 pf65) ⟨2, 0, 1000, true⟩ stP).2.1 =
        [(2, mulU (stP.messages 1).fee_paid RELAYER_REWARD_BPS / 10000)] ∧
      (step (.confirm_delivery 1 pf65) ⟨2, 0, 1000, true⟩ stP).1.protocol_fee_balance =
        subU stP.protocol_fee_balance
          (mulU (stP.messages 1).fee_paid RELAYER_REWARD_BPS / 10000)) ∧
    ((stA.challenges 1).ch_exists = true ∧ (stA.challenges 1).resolved = false ∧
      (stA.messages 1).status = STATUS_RELAYED ∧
      (step (.challenge_message 1 pf65) ⟨9, 0, 1200, true⟩ stA).2.1 =
        [(9, mulU (rget stA.relayers (stA.messages 1).relayer).stake
            CHALLENGER_REWARD_BPS / 10000)] ∧
      (step (.challenge_message 1 pf65) ⟨9, 0, 1200, true⟩ stA).1.protocol_fee_balance =
        subU (addU stA.protocol_fee_balance (rget stA.relayers (stA.messages 1).relayer).stake)
          (mulU (rget stA.relayers (stA.messages 1).relayer).stake
            CHALLENGER_REWARD_BPS / 10000) ∧
      (rget (step (.challenge_message 1 pf65) ⟨9, 0, 1200, true⟩ stA).1.relayers
        (stA.messages 1).relayer).stake = 0) := by
  constructor
  · have h := (claim_C8_bps_reward_arithmetic ⟨2, 0, 1000, true⟩ stP 1 pf65).1 (by decide)
      (by decide) (by decide) (by decide) rfl
    exact ⟨by decide, by decide, by decide, by decide, h.1, h.2⟩
  · have h := (claim_C8_bps_reward_arithmetic ⟨9, 0, 1200, true⟩ stA 1 pf65).2 (by decide)
      (by decide) (by decide) (by decide) (by decide) rfl
    exact ⟨by decide, by decide, by decide, h.1, h.2.1, h.2.2⟩

/-- Claim C9 (addChain idempotence on the chain count): called by the owner
with a nonzero receiver, `add_chain` succeeds and overwrites the chain's
configuration; on an already-enabled chain it leaves the chain-count scalar
unchanged, and on a not-enabled chain it increments the chain count by
exactly one. -/
theorem claim_C9_add_chain_idempotent_count (env : Env) (s : State) (cid rcv fee : Nat)
    (hown : env.msg_sender = s.owner) (hrcv : rcv ≠ 0) :
    (step (.add_chain cid rcv fee) env s).2.2 = .ok 0 ∧
    (step (.add_chain cid rcv fee) env s).1.supported_chains cid =
      { enabled := true, receiver_address := rcv, base_fee := fee } ∧
    ((s.supported_chains cid).enabled = true →
      (step (.add_chain cid rcv fee) env s).1.chain_count = s.chain_count) ∧
    ((s.supported_chains cid).enabled = false →
      (step (.add_chain cid rcv fee) env s).1.chain_count = addU s.chain_count 1) := by
  obtain ⟨hok, hcfg, hsame, hnew⟩ := add_chain_raw env cid rcv fee s hown hrcv
  rw [step_eq_raw_ok hok]
  exact ⟨hok, hcfg, hsame, hnew⟩

/-- Witness for claim C9 at state `stA` (owner 1, chain 7 enabled, chain 8
not enabled): re-adding chain 7 keeps the chain count at 1, adding chain 8
bumps it to 2. -/
theorem claim_C9_add_chain_idempotent_count_witness :
    (1 : Nat) = stA.owner ∧ (4 : Nat) ≠ 0 ∧
    ((step (.add_chain 7 4 99) ⟨1, 0, 0, true⟩ stA).2.2 = .ok 0 ∧
      (step (.add_chain 7 4 99) ⟨1, 0, 0, true⟩ stA).1.supported_chains 7 =
        { enabled := true, receiver_address := 4, base_fee := 99 } ∧
      (stA.supported_chains 7).enabled = true ∧
      (step (.add_chain 7 4 99) ⟨1, 0, 0, true⟩ stA).1.chain_count = stA.chain_count) ∧
    ((step (.add_chain 8 4 99) ⟨1, 0, 0, true⟩ stA).2.2 = .ok 0 ∧
      (stA.supported_chains 8).enabled = false ∧
      (step (.add_chain 8 4 99) ⟨1, 0, 0, true⟩ stA).1.chain_count =
        addU stA.chain_count 1) := by
  refine ⟨by decide, by decide, ?_, ?_⟩
  · have h := claim_C9_add_chain_idempotent_count ⟨1, 0, 0, true⟩ stA 7 4 99 rfl (by decide)
    exact ⟨h.1, h.2.1, by decide, h.2.2.1 (by decide)⟩
  · have h := claim_C9_add_chain_idempotent_count ⟨1, 0, 0, true⟩ stA 8 4 99 rfl (by decide)
    exact ⟨h.1, by decide, h.2.2.2 (by decide)⟩

/-- Claim C10: `finalize_message` on a message whose challenge record exists
and is already resolved fails with `WrongStatus` carrying expected =
Relayed (1) and actual = Confirmed (2), hard-coded, whatever the message's
actual stored status is. -/
theorem claim_C10_finalize_resolved_wrong_status (env : Env) (s : State) (id : Nat)
    (hch : (s.challenges id).ch_exists = true)
    (hres : (s.challenges id).resolved = true) :
    step (.finalize_message id) env s =
      (s, [], .error (.WrongStatus STATUS_RELAYED STATUS_CONFIRMED)) :=
  step_raw_err (finalize_raw_resolved env id s hch hres)

/-- Witness for claim C10 at state `stB`, whose message 1 is stored as
Failed (3) while the finalize error still reports actual = Confirmed (2). -/
theorem claim_C10_finalize_resolved_wrong_status_witness :
    (stB.challenges 1).ch_exists = true ∧ (stB.challenges 1).resolved = true ∧
    (stB.messages 1).status = STATUS_FAILED ∧
    step (.finalize_message 1) ⟨9, 0, 1400, true⟩ stB =
      (stB, [], .error (.WrongStatus STATUS_RELAYED STATUS_CONFIRMED)) :=
  ⟨by decide, by decide, by decide,
   claim_C10_finalize_resolved_wrong_status ⟨9, 0, 1400, true⟩ stB 1 (by decide) (by decide)⟩

end ArbiLink
